import Mathlib

/-!
Verification of the EVENTIX event-ticketing platform's core workflow logic.

Shallow embedding of the relevant source modules:
* `src/services/api-gateway/middleware.py` —rate limiter and per-upstream
  circuit breaker (`CircuitBreaker.call`).
* `src/services/user-service/services/notification_service.py` — notification
  persistence on booking events.
* `src/services/booking-service/services/booking_workflow_service.py` and
  `src/services/booking-service/event_handlers/payment_event_handler.py` —
  booking confirmation / cancellation driven by payment events.
* `src/shared/workflow_manager.py` — the shared workflow manager.
* `src/saga_orchestrator.py` — the Kafka saga orchestrator.
* `src/services/event_service/routes/seat_reservation_routes.py` — the seat
  reservation store operations.

Identifiers (UUIDs) are modelled as `Nat`, wall-clock timestamps as `Nat`
(milliseconds are irrelevant to the claims, only ordering matters), database
transactions as pure state transformers where a raised exception followed by
`rollback()` returns the original state, and the message bus as the list of
events a handler publishes.
-/

/-! ### API gateway circuit breaker
Embedding of `CircuitBreaker` in `src/services/api-gateway/middleware.py`.
The class keeps `failure_count`, `last_failure_time` and a string `state`
(CLOSED / OPEN / HALF_OPEN); `call` wraps an upstream request. -/

/-- The three states of the gateway circuit breaker ("CLOSED", "OPEN",
"HALF_OPEN" in the source). `opened` stands for the string "OPEN". -/
inductive CBState where
  | closed
  | opened
  | halfOpen
deriving DecidableEq

structure CircuitBreaker where
  failureThreshold : Nat
  timeout : Nat
  failureCount : Nat
  lastFailureTime : Nat
  state : CBState
deriving DecidableEq

/-- A breaker as constructed by `CircuitBreaker()` with the default config:
`CIRCUIT_BREAKER_FAILURE_THRESHOLD=5`, `CIRCUIT_BREAKER_TIMEOUT=60`
(`src/services/api-gateway/config.py`). -/
def CircuitBreaker.init : CircuitBreaker :=
  { failureThreshold := 5, timeout := 60, failureCount := 0
    lastFailureTime := 0, state := .closed }

inductive CallOutcome where
  | rejected
  | succeeded
  | failed
deriving DecidableEq

/-- The body of `wrapper` after the OPEN gate: run the upstream call
(`upstreamOk` says whether `func` returns or raises), then update the
counters exactly as `middleware.py` lines 62-75 do. Note that on success the
failure count is reset only from the HALF_OPEN state. -/
def attemptCall (cb : CircuitBreaker) (now : Nat) (upstreamOk : Bool) :
    CircuitBreaker × CallOutcome :=
  if upstreamOk then
    if cb.state = .halfOpen then
      ({ cb with state := .closed, failureCount := 0 }, .succeeded)
    else (cb, .succeeded)
  else
    let cb1 := { cb with failureCount := cb.failureCount + 1, lastFailureTime := now }
    if cb1.failureThreshold ≤ cb1.failureCount then
      ({ cb1 with state := .opened }, .failed)
    else (cb1, .failed)

/-- `CircuitBreaker.call`'s `wrapper` (`middleware.py` lines 52-75): while
OPEN, re-enter HALF_OPEN when `time.time() - last_failure_time > timeout`,
else reject with a 503; otherwise attempt the upstream call. -/
def cbCall (cb : CircuitBreaker) (now : Nat) (upstreamOk : Bool) :
    CircuitBreaker × CallOutcome :=
  if cb.state = .opened then
    if cb.timeout < now - cb.lastFailureTime then
      attemptCall { cb with state := .halfOpen } now upstreamOk
    else (cb, .rejected)
  else attemptCall cb now upstreamOk

/-- A sequence of gateway calls, each a (wall-clock time, upstream outcome)
pair, threaded through one breaker. -/
def cbRun (cb : CircuitBreaker) (calls : List (Nat × Bool)) : CircuitBreaker :=
  calls.foldl (fun c p => (cbCall c p.1 p.2).1) cb

/-! ### User-service notification emitter
Embedding of `NotificationService` in
`src/services/user-service/services/notification_service.py`. Each handler
constructs a `Notification` row with `id=str(uuid.uuid4())` — a fresh random
id per call, passed in here as `freshId` — commits it, and publishes a
`customer_notification_sent` event. Rendering fields (title, message,
channels) are constants and are omitted. -/

structure Notification where
  id : Nat
  userId : Nat
  ntype : String
  bookingId : Nat
deriving DecidableEq

structure UserDB where
  notifications : List Notification
deriving DecidableEq

structure UserEvent where
  eventType : String
  notificationId : Nat
  userId : Nat
  bookingId : Nat
deriving DecidableEq

/-- `NotificationService.send_booking_confirmation`: unconditionally insert a
new notification row (no lookup of any previous record) and publish the
`customer_notification_sent` event. -/
def sendBookingConfirmation (db : UserDB) (freshId userId bookingId : Nat) :
    UserDB × List UserEvent :=
  ({ notifications := db.notifications ++ [⟨freshId, userId, "booking_confirmation", bookingId⟩] },
   [⟨"customer_notification_sent", freshId, userId, bookingId⟩])

/-- `NotificationService.send_booking_cancellation`: same shape with type
`booking_cancellation`. -/
def sendBookingCancellation (db : UserDB) (freshId userId bookingId : Nat) :
    UserDB × List UserEvent :=
  ({ notifications := db.notifications ++ [⟨freshId, userId, "booking_cancellation", bookingId⟩] },
   [⟨"customer_notification_sent", freshId, userId, bookingId⟩])

/-! ### Booking service workflow
Embedding of `BookingWorkflowService` in
`src/services/booking-service/services/booking_workflow_service.py` and of
`BookingServicePaymentHandler` in
`src/services/booking-service/event_handlers/payment_event_handler.py`.
Booking statuses are the literal strings the service stores
("pending_payment", "confirmed", "cancelled"). A database transaction is a
pure transformer: the session's mutations take effect only at `commit()`
(`commitOk` says whether the commit succeeds); every raised exception is
followed by `rollback()`, returning the original state, and the error is
reported in the third component. Events are published only after a
successful commit. -/

structure Booking where
  id : Nat
  userId : Nat
  status : String
  /-- `expires_at` in `booking_workflow_service.py` (the spec calls it
  `expiry_date`). -/
  expiresAt : Nat
  paymentId : Option Nat
  confirmedAt : Option Nat
  cancelledAt : Option Nat
deriving DecidableEq

structure HistoryEntry where
  id : Nat
  bookingId : Nat
  status : String
  changedBy : String
  changeReason : String
deriving DecidableEq

structure BookingDB where
  bookings : List Booking
  history : List HistoryEntry
deriving DecidableEq

inductive BookingEvent where
  /-- `booking_confirmed` with the confirmed booking's id and payment id. -/
  | confirmed (bookingId paymentId : Nat)
  /-- `booking_cancelled` with the previous status, the reason, and
  `refund_required = (previous_status == "confirmed")`. -/
  | cancelled (bookingId : Nat) (previousStatus reason : String)
      (refundRequired : Bool) (paymentId : Option Nat)
deriving DecidableEq

inductive BookingErr where
  | notFound
  | invalidStatus
  | commitFailed
deriving DecidableEq

/-- `select(Booking).where(Booking.id == booking_id)` + `scalar_one_or_none`. -/
def findBooking (db : BookingDB) (bid : Nat) : Option Booking :=
  db.bookings.find? (fun b => b.id == bid)

/-- The session image of mutating one booking row in place. -/
def replaceBooking (db : BookingDB) (bid : Nat) (b1 : Booking) : BookingDB :=
  { db with bookings := db.bookings.map (fun x => if x.id == bid then b1 else x) }

/-- `BookingWorkflowService.confirm_booking`: look the booking up (missing →
raise), require status `pending_payment` (else raise), set status
`confirmed` with `payment_id` and `confirmed_at`, append a history row
(changed_by "system", reason "Payment completed: <payment_id>"), commit, and
publish `booking_confirmed`. `histId` is the fresh uuid drawn for the
history row. -/
def confirmBooking (db : BookingDB) (now bookingId paymentId histId : Nat)
    (commitOk : Bool) : BookingDB × List BookingEvent × Option BookingErr :=
  match findBooking db bookingId with
  | none => (db, [], some .notFound)
  | some b =>
    if b.status ≠ "pending_payment" then (db, [], some .invalidStatus)
    else
      let b1 := { b with status := "confirmed", paymentId := some paymentId
                         confirmedAt := some now }
      let h : HistoryEntry :=
        ⟨histId, b.id, "confirmed", "system", "Payment completed: " ++ toString paymentId⟩
      let session := { replaceBooking db bookingId b1 with history := db.history ++ [h] }
      if commitOk then (session, [.confirmed b.id paymentId], none)
      else (db, [], some .commitFailed)

/-- `BookingWorkflowService.cancel_booking`: look the booking up (missing →
raise), remember `old_status`, set status `cancelled` with `cancelled_at`,
append a history row with the reason, commit, publish `booking_cancelled`
with `refund_required = (old_status == "confirmed")`. There is no guard on
the current status. -/
def cancelBooking (db : BookingDB) (now bookingId histId : Nat) (reason : String)
    (commitOk : Bool) : BookingDB × List BookingEvent × Option BookingErr :=
  match findBooking db bookingId with
  | none => (db, [], some .notFound)
  | some b =>
    let b1 := { b with status := "cancelled", cancelledAt := some now }
    let h : HistoryEntry := ⟨histId, b.id, "cancelled", "system", reason⟩
    let session := { replaceBooking db bookingId b1 with history := db.history ++ [h] }
    if commitOk then
      (session, [.cancelled b.id b.status reason (b.status == "confirmed") b.paymentId], none)
    else (db, [], some .commitFailed)

/-- `BookingServicePaymentHandler._handle_payment_completed`: return (logging
only) when `booking_id` or `payment_id` is missing from the event data, else
call `confirm_booking`; any exception it raises is caught and logged, leaving
the store untouched and publishing nothing. -/
def handlePaymentCompleted (db : BookingDB) (bookingId paymentId : Option Nat)
    (now histId : Nat) (commitOk : Bool) : BookingDB × List BookingEvent :=
  match bookingId, paymentId with
  | some bid, some pid =>
    match confirmBooking db now bid pid histId commitOk with
    | (_, _, some _) => (db, [])
    | (db1, evs, none) => (db1, evs)
  | _, _ => (db, [])

/-- `BookingServicePaymentHandler._handle_payment_refunded`: return when
`booking_id` is missing, else call `cancel_booking(booking_id,
"refund_processed")`; exceptions are caught and logged. -/
def handlePaymentRefunded (db : BookingDB) (bookingId : Option Nat)
    (now histId : Nat) (commitOk : Bool) : BookingDB × List BookingEvent :=
  match bookingId with
  | some bid =>
    match cancelBooking db now bid histId "refund_processed" commitOk with
    | (_, _, some _) => (db, [])
    | (db1, evs, none) => (db1, evs)
  | none => (db, [])

/-- A booking whose `expires_at` (5) already lies in the past at the time
(10) its `payment.completed` event is processed, yet whose status is still
`pending_payment` (no sweeper ran). -/
def lateBooking : Booking :=
  { id := 1, userId := 7, status := "pending_payment", expiresAt := 5
    paymentId := none, confirmedAt := none, cancelledAt := none }

def lateDB : BookingDB := ⟨[lateBooking], []⟩

/-- A booking that was CONFIRMED (payment 9 attached, confirmed at 20). -/
def confirmedBooking : Booking :=
  { id := 2, userId := 7, status := "confirmed", expiresAt := 50
    paymentId := some 9, confirmedAt := some 20, cancelledAt := none }

/-- The store after the user cancels `confirmedBooking` (so it is now
CANCELLED and a refund was requested: `refund_required=true` was published). -/
def cancelledDB : BookingDB :=
  (cancelBooking ⟨[confirmedBooking], []⟩ 30 2 600 "user_cancelled" true).1

/-- The row `cancelledDB` stores for booking 2: cancelled at 30, payment 9
still attached. -/
def cancelledBooking : Booking :=
  { confirmedBooking with status := "cancelled", cancelledAt := some 30 }

/-! ### Shared workflow manager
Embedding of `WorkflowManager` in `src/shared/workflow_manager.py`, acting
on one `Workflow` (the manager looks the instance up by id in
`active_workflows` and warns-and-returns on a miss; unknown ids are outside
every claim). The events a call publishes are returned alongside the updated
instance. -/

inductive WStepStatus where
  | pending
  | completed
  | failed
  | skipped
  | compensated
deriving DecidableEq

inductive WStatus where
  | initiated
  | inProgress
  | completed
  | failed
  | compensating
  | compensated
  | timeout
deriving DecidableEq

structure WStep where
  name : String
  service : String
  eventType : String
  timeout : Nat
  status : WStepStatus
  result : Option String
  error : Option String
  startedAt : Option Nat
  completedAt : Option Nat
deriving DecidableEq

/-- `WorkflowStep.__init__`: a fresh step is PENDING with empty result,
error and timestamps. -/
def WStep.make (name service eventType : String) (timeout : Nat) : WStep :=
  ⟨name, service, eventType, timeout, .pending, none, none, none, none⟩

structure Workflow where
  workflowId : String
  workflowType : String
  status : WStatus
  steps : List WStep
deriving DecidableEq

/-- An event published through `_publish_workflow_event` (routed to
`targetService`'s exchange). `stepName` is the `step_name` field of the
payload (empty for the workflow-level completion event). -/
structure WEvent where
  targetService : String
  eventType : String
  stepName : String
deriving DecidableEq

/-- `WorkflowManager._execute_workflow` (lines 106-129): set the instance
IN_PROGRESS, then for EVERY step — in definition order, in one loop, with no
wait for any response — mark it PENDING, stamp `started_at` and publish its
request event to its target service. -/
def executeWorkflow (w : Workflow) (now : Nat) : Workflow × List WEvent :=
  let steps := w.steps.map (fun s => { s with status := .pending, startedAt := some now })
  ({ w with status := .inProgress, steps := steps },
   steps.map (fun s => ⟨s.service, s.eventType, s.name⟩))

/-- `WorkflowManager._handle_workflow_failure` (lines 185-207): set the
instance COMPENSATING and publish, for the steps whose status is COMPLETED
taken in reversed list order, the `<event_type>.compensate` event carrying
the step's original result. -/
def handleWorkflowFailure (w : Workflow) : Workflow × List WEvent :=
  ({ w with status := .compensating },
   ((w.steps.filter (fun s => s.status == .completed)).reverse).map
     (fun s => ⟨s.service, s.eventType ++ ".compensate", s.name⟩))

/-- `WorkflowManager._handle_workflow_completion`: set the instance
COMPLETED and publish `<workflow_type>.completed` to all services. -/
def handleWorkflowCompletion (w : Workflow) : Workflow × List WEvent :=
  ({ w with status := .completed }, [⟨"all", w.workflowType ++ ".completed", ""⟩])

/-- `WorkflowManager.handle_workflow_response` (lines 131-159): find the step
by name (unknown step → warn and return); stamp `completed_at`, store result
and error, set the step COMPLETED on `success` else FAILED; then if any step
is FAILED start compensation, else if all steps are COMPLETED finish the
workflow. There is no retry branch: `attempts`/`max_attempts` do not exist on
`WorkflowStep`. -/
def handleWorkflowResponse (w : Workflow) (stepName : String) (success : Bool)
    (result error : Option String) (now : Nat) : Workflow × List WEvent :=
  match w.steps.find? (fun s => s.name == stepName) with
  | none => (w, [])
  | some _ =>
    let newStatus := if success then WStepStatus.completed else WStepStatus.failed
    let w1 := { w with steps := w.steps.map (fun (s : WStep) =>
        if s.name == stepName then
          { s with completedAt := some now, result := result, error := error
                   status := newStatus }
        else s) }
    if w1.steps.any (fun s => s.status == .failed) then handleWorkflowFailure w1
    else if w1.steps.all (fun s => s.status == .completed) then handleWorkflowCompletion w1
    else (w1, [])

/-- The `booking_creation` workflow definition registered by
`BookingWorkflowHandler._register_workflows`
(`src/services/booking-service/workflow_handler.py`). -/
def wfBookingCreation : Workflow :=
  ⟨"wf-1", "booking_creation", .initiated,
   [WStep.make "validate_user" "user-service" "user.validate" 30,
    WStep.make "check_seat_availability" "event-service" "seats.check_availability" 30,
    WStep.make "create_payment_intent" "payment-service" "payment.create_intent" 30]⟩

/-! ### Saga orchestrator
Embedding of `SagaOrchestrator` and `BookingTicketSaga` in
`src/saga_orchestrator.py`, acting on one saga (`handle_saga_event` returns
silently when the `saga_id` is unknown). Commands sent through the Kafka
producer are returned as a list. -/

structure SagaStep where
  stepId : String
  service : String
  command : String
  compensationCommand : String
  status : String
  retryCount : Nat
  maxRetries : Nat
deriving DecidableEq

/-- A `SagaStep(...)` with the dataclass defaults `status="PENDING"`,
`retry_count=0`, `max_retries=3`. -/
def SagaStep.make (stepId service command compCmd : String) : SagaStep :=
  ⟨stepId, service, command, compCmd, "PENDING", 0, 3⟩

inductive SagaState where
  | started
  | userValidated
  | seatsReserved
  | bookingCreated
  | paymentProcessed
  | completed
  | failed
  | compensating
  | compensated
deriving DecidableEq

structure BookingTicketSaga where
  sagaId : String
  state : SagaState
  steps : List SagaStep
  currentStep : Nat
deriving DecidableEq

/-- `BookingTicketSaga._initialize_steps`. -/
def sagaInitSteps : List SagaStep :=
  [SagaStep.make "1" "user-service" "VALIDATE_USER" "NONE",
   SagaStep.make "2" "event-service" "RESERVE_SEATS" "RELEASE_SEATS",
   SagaStep.make "3" "booking-service" "CREATE_BOOKING" "CANCEL_BOOKING",
   SagaStep.make "4" "payment-service" "PROCESS_PAYMENT" "REFUND_PAYMENT"]

/-- `BookingTicketSaga.__init__`: state STARTED, the four steps above,
`current_step = 0`. (The booking context fields — user, event, seats,
payment info — only flow into command payloads and are omitted.) -/
def newSaga (sagaId : String) : BookingTicketSaga :=
  ⟨sagaId, .started, sagaInitSteps, 0⟩

/-- A message sent on the Kafka topic `<service>-commands`; the payload
fields other than `saga_id`, `step_id` and `command` do not affect any
claim. -/
structure SagaCommand where
  topic : String
  sagaId : String
  stepId : String
  command : String
deriving DecidableEq

/-- `SagaOrchestrator._execute_next_step` (lines 72-82): when `current_step`
is past the end, mark the saga COMPLETED and send nothing; otherwise build
the command of the step at `current_step`, send it to
`<service>-commands`, and mark that step "SENT". -/
def executeNextStep (s : BookingTicketSaga) : BookingTicketSaga × List SagaCommand :=
  if h : s.currentStep < s.steps.length then
    let st := s.steps.get ⟨s.currentStep, h⟩
    ({ s with steps := s.steps.set s.currentStep { st with status := "SENT" } },
     [⟨st.service ++ "-commands", s.sagaId, st.stepId, st.command⟩])
  else ({ s with state := .completed }, [])

/-- `SagaOrchestrator._start_compensation` (lines 132-138): walk the indices
`current_step - 1` down to `0` and, for each step whose status is
"SUCCESS" (a value no code path ever assigns) and whose compensation is not
"NONE", send the compensation command. -/
def startCompensation (s : BookingTicketSaga) : List SagaCommand :=
  ((s.steps.take s.currentStep).reverse).filterMap (fun st =>
    if st.status == "SUCCESS" && st.compensationCommand != "NONE" then
      some ⟨st.service ++ "-commands", s.sagaId, st.stepId, st.compensationCommand⟩
    else none)

/-- `SagaOrchestrator.handle_saga_event` (lines 115-130) after the saga
lookup: on status "SUCCESS" advance `current_step` and execute the next
step; on "FAILED" set the saga COMPENSATING and start compensation; anything
else is ignored. The event's `step_id` is read but never compared. -/
def handleSagaEvent (s : BookingTicketSaga) (_stepId status : String) :
    BookingTicketSaga × List SagaCommand :=
  if status == "SUCCESS" then
    executeNextStep { s with currentStep := s.currentStep + 1 }
  else if status == "FAILED" then
    ({ s with state := .compensating }, startCompensation s)
  else (s, [])

/-- The saga state right after `start_booking_saga` ran `_execute_next_step`
once: step "1" was sent. -/
def sagaAfterStart : BookingTicketSaga := (executeNextStep (newSaga "s1")).1

/-- Workflow run used against claim C4: all three `booking_creation` step
requests are broadcast at time 0, then the seat-availability response lands
first (time 1), the user-validation response second (time 2). -/
def c4AfterTwo : Workflow :=
  (handleWorkflowResponse
    (handleWorkflowResponse (executeWorkflow wfBookingCreation 0).1
      "check_seat_availability" true none none 1).1
    "validate_user" true none none 2).1

/-- ... and finally the payment-intent step fails at time 3, which triggers
compensation. -/
def c4FailureResult : Workflow × List WEvent :=
  handleWorkflowResponse c4AfterTwo "create_payment_intent" false none (some "card declined") 3

/-! ### Event service seat reservation store
Embedding of the reservation routes in
`src/services/event_service/routes/seat_reservation_routes.py` over the
models of `src/services/event-service/models.py`. Reservation rows carry the
columns the claims touch; pricing, notes, metadata and audit columns are
omitted, and the `reservation_id` string is modelled as a `Nat` key. -/

inductive SeatStatus where
  | available
  | reserved
  | occupied
  | blocked
  | maintenance
deriving DecidableEq

inductive ResStatus where
  | pending
  | confirmed
  | expired
  | cancelled
  | completed
deriving DecidableEq

structure Seat where
  id : Nat
  status : SeatStatus
deriving DecidableEq

structure Reservation where
  id : Nat
  seatId : Nat
  eventId : Nat
  userId : Option Nat
  status : ResStatus
  expiresAt : Nat
deriving DecidableEq

structure EventDB where
  seats : List Seat
  events : List Nat
  reservations : List Reservation
deriving DecidableEq

inductive HttpErr where
  | notFound
  | badRequest
  | forbidden
deriving DecidableEq

/-- The authenticated caller (`TokenData`): user id and role. -/
structure Requester where
  userId : Nat
  role : String
deriving DecidableEq

/-- `status in (PENDING, CONFIRMED)`: the reservation still holds its seat. -/
def ResStatus.isActive : ResStatus → Bool
  | .pending => true
  | .confirmed => true
  | _ => false

/-- The filter of the route's existing-reservation query (lines 61-67):
same seat, same event, status PENDING or CONFIRMED. -/
def activeFor (seatId eventId : Nat) (r : Reservation) : Bool :=
  r.seatId == seatId && r.eventId == eventId && r.status.isActive

def setSeatStatus (db : EventDB) (seatId : Nat) (st : SeatStatus) : EventDB :=
  { db with seats := db.seats.map (fun s =>
      if s.id == seatId then { s with status := st } else s) }

/-- `create_seat_reservation` (lines 26-98): 404 when the seat or the event
is missing; 400 when the seat is not AVAILABLE; 400 ("Seat already has an
active reservation for this event") when an active reservation exists for
the pair; otherwise insert a reservation (model default status PENDING; the
fresh `reservation_id` and the computed `expires_at = now + 15 min` are
passed in) and flip the seat to RESERVED, in one transaction. -/
def createSeatReservation (db : EventDB) (user : Requester)
    (seatId eventId newResId expiresAt : Nat) : Except HttpErr EventDB :=
  match db.seats.find? (fun s => s.id == seatId) with
  | none => .error .notFound
  | some seat =>
    if seat.status ≠ .available then .error .badRequest
    else if ¬ db.events.contains eventId then .error .notFound
    else if (db.reservations.find? (activeFor seatId eventId)).isSome then
      .error .badRequest
    else
      .ok (setSeatStatus
        { db with reservations := db.reservations ++
            [⟨newResId, seatId, eventId, some user.userId, .pending, expiresAt⟩] }
        seatId .reserved)

/-- `update_reservation` (lines 173-228), restricted to the `status` field of
`SeatReservationUpdate` (the other updatable columns — price, notes,
expiry — bear on no claim): 404 on a missing reservation, 403 unless the
caller is admin or the owner; apply the new status; when the status changed,
flip the seat OCCUPIED on CONFIRMED, or AVAILABLE on CANCELLED/EXPIRED. No
other reservation of the same seat/event pair is ever consulted. -/
def updateReservation (db : EventDB) (user : Requester) (resId : Nat)
    (newStatus : Option ResStatus) : Except HttpErr EventDB :=
  match db.reservations.find? (fun r => r.id == resId) with
  | none => .error .notFound
  | some r =>
    if user.role ≠ "admin" ∧ r.userId ≠ some user.userId then .error .forbidden
    else
      let ns := newStatus.getD r.status
      let db1 := { db with reservations := db.reservations.map (fun x =>
          if x.id == resId then { x with status := ns } else x) }
      if r.status ≠ ns then
        if ns = .confirmed then .ok (setSeatStatus db1 r.seatId .occupied)
        else if ns = .cancelled ∨ ns = .expired then
          .ok (setSeatStatus db1 r.seatId .available)
        else .ok db1
      else .ok db1

/-- Invariant I-1: at most one reservation with status in
{PENDING, CONFIRMED} exists for a given `(seat_id, event_id)`. -/
def atMostOneActive (db : EventDB) : Prop :=
  ∀ seatId eventId : Nat, db.reservations.countP (activeFor seatId eventId) ≤ 1

/-- A seat is reservable in the spec's sense: it exists with status
AVAILABLE and no active reservation holds it for this event. -/
def reservableB (db : EventDB) (seatId eventId : Nat) : Bool :=
  (match db.seats.find? (fun s => s.id == seatId) with
   | some s => s.status == .available
   | none => false) &&
  (db.reservations.find? (activeFor seatId eventId)).isNone

/-- Store for the C1 counterexample: seat 1 is RESERVED under the pending
reservation 100 of user 7 for event 10; reservation 101 of user 8 for the
same seat and event was cancelled earlier. -/
def c1db : EventDB :=
  ⟨[⟨1, .reserved⟩], [10],
   [⟨100, 1, 10, some 7, .pending, 50⟩, ⟨101, 1, 10, some 8, .cancelled, 50⟩]⟩

def c1admin : Requester := ⟨99, "admin"⟩

/-- Store for the C1 witness: one AVAILABLE seat, one event, no
reservations. -/
def c1freshDB : EventDB := ⟨[⟨1, .available⟩], [10], []⟩

def c1user : Requester := ⟨7, "user"⟩

/-- What `create_seat_reservation` on `c1freshDB` produces: the seat
RESERVED and one PENDING reservation. -/
def c1okDB : EventDB := ⟨[⟨1, .reserved⟩], [10], [⟨5, 1, 10, some 7, .pending, 50⟩]⟩

/-! ## Theorems -/

/-- `find?` over a list where every element matching `p` was replaced by the
fixed element `b1` (itself matching `p`) finds `b1`, provided some element
matched before. This is the session image of `UPDATE ... WHERE id = ...`. -/
theorem find?_map_replace {α : Type} (p : α → Bool) (b1 : α) (l : List α)
    (hb : p b1 = true) (h : (l.find? p).isSome = true) :
    (l.map (fun x => if p x then b1 else x)).find? p = some b1 := by
  induction l with
  | nil => simp [List.find?] at h
  | cons a t ih =>
    by_cases ha : p a = true
    · simp [List.find?_cons, ha, hb]
    · have ha' : p a = false := by
        cases hpa : p a
        · rfl
        · exact absurd hpa ha
      rw [List.find?_cons_of_neg _ (by simp [ha'])] at h
      simp only [List.map_cons, ha', if_neg (by simp [ha'] : ¬ p a = true)]
      rw [List.find?_cons_of_neg _ (by simp [ha'])]
      exact ih h

/-- Claim C8, counterexample. Starting from a fresh breaker, the call
sequence fail, fail, fail, fail, success, fail (at times 1..6) leaves the
breaker OPEN although the longest run of consecutive failures ending at the
transition is 1: the success at time 5 did not reset the failure counter,
because `CircuitBreaker.call` resets it only from the HALF_OPEN state. The
claim says CLOSED transitions to OPEN exactly when 5 consecutive calls fail
and that a success while CLOSED resets the streak, which would leave this
breaker CLOSED (second conjunct: it is still CLOSED just before the last,
single failure). -/
theorem c8_counterexample :
    (cbRun CircuitBreaker.init
      [(1, false), (2, false), (3, false), (4, false), (5, true), (6, false)]).state
        = CBState.opened ∧
    (cbRun CircuitBreaker.init
      [(1, false), (2, false), (3, false), (4, false), (5, true)]).state
        = CBState.closed := by
  constructor <;> rfl

/-- Claim C8, amended: for every upstream, the breaker transitions
CLOSED→OPEN when the cumulative failure count reaches `failure_threshold=5` —
a success while CLOSED does NOT reset the count (it is reset only by the
HALF_OPEN→CLOSED transition); OPEN→HALF_OPEN on the first call more than
`timeout=60` after the last failure; HALF_OPEN→CLOSED on the first success;
HALF_OPEN→OPEN on a failure; while OPEN and within the timeout the call is
rejected without contacting the upstream and the breaker is unchanged. -/
theorem c8_breaker_transitions (cb : CircuitBreaker) (now : Nat) (ok : Bool) :
    (cb.state = .closed → ok = true → cbCall cb now ok = (cb, .succeeded)) ∧
    (cb.state = .closed → ok = false → cb.failureCount + 1 < cb.failureThreshold →
      (cbCall cb now ok).1.state = .closed ∧
      (cbCall cb now ok).1.failureCount = cb.failureCount + 1) ∧
    (cb.state = .closed → ok = false → cb.failureThreshold ≤ cb.failureCount + 1 →
      (cbCall cb now ok).1.state = .opened) ∧
    (cb.state = .opened → now - cb.lastFailureTime ≤ cb.timeout →
      cbCall cb now ok = (cb, .rejected)) ∧
    (cb.state = .opened → cb.timeout < now - cb.lastFailureTime → ok = true →
      (cbCall cb now ok).1.state = .closed ∧ (cbCall cb now ok).1.failureCount = 0) ∧
    (cb.state = .opened → cb.timeout < now - cb.lastFailureTime → ok = false →
      cb.failureThreshold ≤ cb.failureCount →
      (cbCall cb now ok).1.state = .opened) ∧
    (cb.state = .halfOpen → ok = true →
      (cbCall cb now ok).1.state = .closed ∧ (cbCall cb now ok).1.failureCount = 0) ∧
    (cb.state = .halfOpen → ok = false → cb.failureThreshold ≤ cb.failureCount →
      (cbCall cb now ok).1.state = .opened) := by
  refine ⟨?_, ?_, ?_, ?_, ?_, ?_, ?_, ?_⟩
  · intro h1 h2
    subst h2
    simp [cbCall, attemptCall, h1]
  · intro h1 h2 h3
    subst h2
    have hlt : ¬ cb.failureThreshold ≤ cb.failureCount + 1 := by omega
    simp [cbCall, attemptCall, h1, hlt]
  · intro h1 h2 h3
    subst h2
    simp [cbCall, attemptCall, h1, h3]
  · intro h1 h2
    have hnot : ¬ cb.timeout < now - cb.lastFailureTime := by omega
    simp [cbCall, h1, hnot]
  · intro h1 h2 h3
    subst h3
    simp [cbCall, attemptCall, h1, h2]
  · intro h1 h2 h3 h4
    subst h3
    have : cb.failureThreshold ≤ cb.failureCount + 1 := by omega
    simp [cbCall, attemptCall, h1, h2, this]
  · intro h1 h2
    subst h2
    have hne : cb.state ≠ .opened := by rw [h1]; intro hc; cases hc
    simp [cbCall, attemptCall, h1, hne]
  · intro h1 h2 h3
    subst h2
    have hne : cb.state ≠ .opened := by rw [h1]; intro hc; cases hc
    have : cb.failureThreshold ≤ cb.failureCount + 1 := by omega
    simp [cbCall, attemptCall, h1, hne, this]

/-- Claim C8, witness: the amended transition facts instantiated on a fresh
breaker observing one successful call. -/
theorem c8_breaker_transitions_witness :
    cbCall CircuitBreaker.init 61 true = (CircuitBreaker.init, .succeeded) :=
  (c8_breaker_transitions CircuitBreaker.init 61 true).1 rfl rfl

/-- Claim C9, counterexample. Delivering the same `booking_confirmed` bus
event twice (user 7, booking 42; the two calls draw fresh notification ids
1 and 2) creates two persisted notification records for that user and
booking, not one: `send_booking_confirmation` keys records by a fresh
`uuid4`, not by `(user_id, event_id)`, and performs no duplicate lookup. -/
theorem c9_counterexample :
    ((sendBookingConfirmation (sendBookingConfirmation ⟨[]⟩ 1 7 42).1 2 7 42).1.notifications.countP
      (fun n => n.userId == 7 && n.bookingId == 42)) = 2 := by
  rfl

/-- Claim C9, amended: notification creation is NOT idempotent on the
originating bus event. Every delivery of a booking-confirmation or
booking-cancellation event appends exactly one new notification record
(keyed by a fresh random id); in particular two deliveries about the same
user and booking add exactly two records for that pair. -/
theorem c9_notification_not_deduplicated (db : UserDB) (f1 f2 uid bid : Nat) :
    ((sendBookingConfirmation db f1 uid bid).1.notifications.length
        = db.notifications.length + 1) ∧
    ((sendBookingCancellation db f1 uid bid).1.notifications.length
        = db.notifications.length + 1) ∧
    (((sendBookingConfirmation (sendBookingConfirmation db f1 uid bid).1 f2 uid bid).1.notifications.countP
        (fun n => n.userId == uid && n.bookingId == bid))
      = db.notifications.countP (fun n => n.userId == uid && n.bookingId == bid) + 2) := by
  refine ⟨?_, ?_, ?_⟩
  · simp [sendBookingConfirmation]
  · simp [sendBookingCancellation]
  · simp [sendBookingConfirmation, List.countP_append, List.countP_cons]

/-- Claim C9, witness: the amended statement at an empty store, user 7,
booking 42, fresh ids 1 and 2. -/
theorem c9_notification_not_deduplicated_witness :
    ((sendBookingConfirmation (⟨[]⟩ : UserDB) 1 7 42).1.notifications.length
        = ([] : List Notification).length + 1) ∧
    ((sendBookingCancellation (⟨[]⟩ : UserDB) 1 7 42).1.notifications.length
        = ([] : List Notification).length + 1) ∧
    (((sendBookingConfirmation (sendBookingConfirmation (⟨[]⟩ : UserDB) 1 7 42).1 2 7 42).1.notifications.countP
        (fun n => n.userId == 7 && n.bookingId == 42))
      = ([] : List Notification).countP (fun n => n.userId == 7 && n.bookingId == 42) + 2) :=
  c9_notification_not_deduplicated ⟨[]⟩ 1 2 7 42

/-- Claim C5, counterexample. `lateBooking`'s expiry (5) has passed at time
10, its status is still `pending_payment`, and processing the late
`payment.completed` event DOES transition it to CONFIRMED:
`confirm_booking` checks only the stored status and never consults
`expires_at`, so there is no "the handler checks the timer first". -/
theorem c5_counterexample :
    lateBooking.expiresAt < 10 ∧
    ((handlePaymentCompleted lateDB (some 1) (some 99) 10 500 true).1.bookings.map Booking.status
       = ["confirmed"]) := by
  exact ⟨by decide, rfl⟩

/-- Claim C5, amended: for a booking whose `expires_at` has passed, a late
`payment.completed` event is a no-op exactly when the booking has already
left `pending_payment` (e.g. was marked expired or cancelled by some other
actor); if the booking is still `pending_payment` the handler confirms it
regardless of the expiry — the expiry timer is never checked. -/
theorem c5_late_payment (db : BookingDB) (b : Booking) (now bid pid hid : Nat)
    (hfind : findBooking db bid = some b) (hexp : b.expiresAt < now) :
    (b.status ≠ "pending_payment" →
       handlePaymentCompleted db (some bid) (some pid) now hid true = (db, [])) ∧
    (b.status = "pending_payment" →
       (handlePaymentCompleted db (some bid) (some pid) now hid true).1.bookings.find?
           (fun x => x.id == bid)
         = some { b with status := "confirmed", paymentId := some pid
                         confirmedAt := some now }) := by
  have hfind' : db.bookings.find? (fun x => x.id == bid) = some b := hfind
  have hp : (b.id == bid) = true := by
    have h := List.find?_some hfind'
    simpa using h
  constructor
  · intro hne
    simp [handlePaymentCompleted, confirmBooking, hfind, hne]
  · intro hpend
    have hsome : (db.bookings.find? (fun x => x.id == bid)).isSome = true := by
      unfold findBooking at hfind
      simp [hfind]
    simp only [handlePaymentCompleted, confirmBooking, hfind, hpend, ne_eq,
      not_true_eq_false, if_false, if_true, ite_true, replaceBooking]
    exact find?_map_replace (fun x => x.id == bid)
      { b with status := "confirmed", paymentId := some pid, confirmedAt := some now }
      db.bookings hp hsome

/-- Claim C5, witness: the amended statement on `lateBooking` (expiry 5,
processed at time 10). -/
theorem c5_late_payment_witness :
    ((lateBooking.status ≠ "pending_payment" →
       handlePaymentCompleted lateDB (some 1) (some 99) 10 500 true = (lateDB, [])) ∧
     (lateBooking.status = "pending_payment" →
       (handlePaymentCompleted lateDB (some 1) (some 99) 10 500 true).1.bookings.find?
           (fun x => x.id == 1)
         = some { lateBooking with status := "confirmed", paymentId := some 99
                                   confirmedAt := some 10 })) :=
  c5_late_payment lateDB lateBooking 10 1 99 500 rfl (by decide)

/-- Claim C6: processing `payment.completed` is idempotent on the booking
state. For a booking already CONFIRMED, `confirm_booking` raises on the
status guard before any mutation, the handler catches the exception, and the
persisted store (bookings and history alike) is returned unchanged with no
event published — so applying the handler a second time after the confirming
application changes nothing. -/
theorem c6_payment_completed_idempotent (db : BookingDB) (b : Booking)
    (bid pid now hid : Nat) (commitOk : Bool)
    (hfind : findBooking db bid = some b) (hconf : b.status = "confirmed") :
    handlePaymentCompleted db (some bid) (some pid) now hid commitOk = (db, []) := by
  have hne : b.status ≠ "pending_payment" := by rw [hconf]; decide
  simp [handlePaymentCompleted, confirmBooking, hfind, hne]

/-- Claim C6, witness: replaying `payment.completed` against the store
holding the already-confirmed booking 2 is the identity. -/
theorem c6_payment_completed_idempotent_witness :
    handlePaymentCompleted ⟨[confirmedBooking], []⟩ (some 2) (some 9) 40 601 true
      = (⟨[confirmedBooking], []⟩, []) :=
  c6_payment_completed_idempotent ⟨[confirmedBooking], []⟩ confirmedBooking 2 9 40 601 true
    rfl rfl

/-- Claim C7, counterexample. Booking 2 was CONFIRMED and is now CANCELLED
(`cancelledDB`); processing `payment.refunded` leaves its status
"cancelled" — `_handle_payment_refunded` merely calls
`cancel_booking(booking_id, "refund_processed")`, which sets status
`cancelled`; the status REFUNDED is never assigned. -/
theorem c7_counterexample :
    ((handlePaymentRefunded cancelledDB (some 2) 40 601 true).1.bookings.map Booking.status
       = ["cancelled"]) ∧
    ((handlePaymentRefunded cancelledDB (some 2) 40 601 true).1.bookings.map Booking.status
       ≠ ["refunded"]) := by
  exact ⟨rfl, by decide⟩

/-- Claim C7, amended: when `payment.refunded` is processed for any existing
booking (in particular one that was CONFIRMED and is now CANCELLED), the
booking is set to status "cancelled" — not "refunded" — and a history row
with reason "refund_processed" is appended. -/
theorem c7_refund_sets_cancelled (db : BookingDB) (b : Booking) (bid now hid : Nat)
    (hfind : findBooking db bid = some b) :
    ((handlePaymentRefunded db (some bid) now hid true).1.bookings.find?
        (fun x => x.id == bid)
      = some { b with status := "cancelled", cancelledAt := some now }) ∧
    ((handlePaymentRefunded db (some bid) now hid true).1.history
      = db.history ++ [⟨hid, b.id, "cancelled", "system", "refund_processed"⟩]) := by
  have hfind' : db.bookings.find? (fun x => x.id == bid) = some b := hfind
  have hp : (b.id == bid) = true := by
    have h := List.find?_some hfind'
    simpa using h
  have hsome : (db.bookings.find? (fun x => x.id == bid)).isSome = true := by
    unfold findBooking at hfind
    simp [hfind]
  constructor
  · simp only [handlePaymentRefunded, cancelBooking, hfind, if_true, ite_true,
      replaceBooking]
    exact find?_map_replace (fun x => x.id == bid)
      { b with status := "cancelled", cancelledAt := some now }
      db.bookings hp hsome
  · simp [handlePaymentRefunded, cancelBooking, hfind]

/-- Claim C7, witness: the amended statement on `cancelledDB`'s booking 2. -/
theorem c7_refund_sets_cancelled_witness :
    (((handlePaymentRefunded cancelledDB (some 2) 40 601 true).1.bookings.find?
        (fun x => x.id == 2)
      = some { cancelledBooking with status := "cancelled"
                                     cancelledAt := some 40 }) ∧
     ((handlePaymentRefunded cancelledDB (some 2) 40 601 true).1.history
      = cancelledDB.history ++ [⟨601, 2, "cancelled", "system", "refund_processed"⟩])) :=
  c7_refund_sets_cancelled cancelledDB cancelledBooking 2 40 601 rfl

/-- Claim C10: `confirm_booking` is atomic on error. Whenever it reports an
error — booking not found, status other than `pending_payment`, or a failed
commit — the returned store equals the input store (the transaction was
rolled back, so neither the booking row nor the history changed) and no
`booking_confirmed` event is published. -/
theorem c10_confirm_booking_atomic_on_error (db : BookingDB)
    (now bid pid hid : Nat) (commitOk : Bool) (e : BookingErr)
    (herr : (confirmBooking db now bid pid hid commitOk).2.2 = some e) :
    (confirmBooking db now bid pid hid commitOk).1 = db ∧
    (confirmBooking db now bid pid hid commitOk).2.1 = [] := by
  unfold confirmBooking at herr ⊢
  cases hfind : findBooking db bid with
  | none => simp [hfind]
  | some b =>
    simp only [hfind] at herr ⊢
    by_cases hst : b.status ≠ "pending_payment"
    · simp [hst]
    · simp only [if_neg hst] at herr ⊢
      cases commitOk with
      | false => simp
      | true => simp at herr

/-- Claim C10, witness: confirming a booking that does not exist (empty
store) errors and leaves the store unchanged with nothing published. -/
theorem c10_confirm_booking_atomic_on_error_witness :
    (confirmBooking ⟨[], []⟩ 0 1 2 3 true).1 = (⟨[], []⟩ : BookingDB) ∧
    (confirmBooking ⟨[], []⟩ 0 1 2 3 true).2.1 = [] :=
  c10_confirm_booking_atomic_on_error ⟨[], []⟩ 0 1 2 3 true .notFound rfl

/-- Every event `_handle_workflow_failure` publishes is the `.compensate`
event of a COMPLETED step of the workflow. -/
theorem mem_compensation_events (w : Workflow) (e : WEvent)
    (he : e ∈ (handleWorkflowFailure w).2) :
    ∃ st ∈ w.steps, st.status = WStepStatus.completed ∧
      e.targetService = st.service ∧
      e.eventType = st.eventType ++ ".compensate" ∧ e.stepName = st.name := by
  simp only [handleWorkflowFailure] at he
  obtain ⟨st, hst, rfl⟩ := List.mem_map.mp he
  rw [List.mem_reverse] at hst
  have h2 := List.mem_filter.mp hst
  exact ⟨st, h2.1, by simpa using h2.2, rfl, rfl, rfl⟩

/-- A failure response for an existing step always lands in
`_handle_workflow_failure` on the updated instance: the step just marked
FAILED makes `has_failed_steps()` true. -/
theorem handleWorkflowResponse_failure (w : Workflow) (stepName : String)
    (res err : Option String) (tnow : Nat)
    (hstep : (w.steps.find? (fun st => st.name == stepName)).isSome = true) :
    handleWorkflowResponse w stepName false res err tnow
      = handleWorkflowFailure
          { w with steps := w.steps.map (fun (s : WStep) =>
              if s.name == stepName then
                { s with completedAt := some tnow, result := res, error := err
                         status := .failed }
              else s) } := by
  obtain ⟨st0, hfind⟩ := Option.isSome_iff_exists.mp hstep
  have hname : (st0.name == stepName) = true := by
    have h := List.find?_some hfind
    simpa using h
  have hmem : st0 ∈ w.steps := List.mem_of_find?_eq_some hfind
  have hany : (w.steps.map (fun (s : WStep) =>
      if s.name == stepName then
        { s with completedAt := some tnow, result := res, error := err
                 status := WStepStatus.failed }
      else s)).any (fun s => s.status == WStepStatus.failed) = true := by
    rw [List.any_eq_true]
    refine ⟨{ st0 with completedAt := some tnow, result := res, error := err
                       status := WStepStatus.failed }, ?_, rfl⟩
    have := List.mem_map_of_mem (fun (s : WStep) =>
      if s.name == stepName then
        { s with completedAt := some tnow, result := res, error := err
                 status := WStepStatus.failed }
      else s) hmem
    simpa [hname] using this
  simp only [handleWorkflowResponse, hfind, Bool.false_eq_true, if_false, hany, if_true]

/-- Claim C2, counterexample. Starting the three-step `booking_creation`
workflow makes `WorkflowManager._execute_workflow` publish the request
events of ALL three steps at once — the requests for
`check_seat_availability` and `create_payment_intent` go out while every
step, in particular `validate_user`, is still PENDING (no step has reached
COMPLETED), so three step requests of one workflow are outstanding
simultaneously. -/
theorem c2_counterexample :
    ((executeWorkflow wfBookingCreation 0).2.map WEvent.stepName
       = ["validate_user", "check_seat_availability", "create_payment_intent"]) ∧
    ((executeWorkflow wfBookingCreation 0).1.steps.all
       (fun s => s.status == WStepStatus.pending)) = true := by
  exact ⟨rfl, rfl⟩

/-- Claim C2, amended: the two coordinators differ. The shared
`WorkflowManager` broadcasts one request event per step at workflow start
(`_execute_workflow` emits exactly `steps.length` requests immediately),
while the Kafka `SagaOrchestrator` is strictly sequential: a "SUCCESS"
response advances `current_step` by one and emits exactly the command of
the single next step (or none, finishing the saga) — never more than one
outstanding command. -/
theorem c2_request_emission (w : Workflow) (tnow : Nat)
    (s : BookingTicketSaga) (sid : String) :
    ((executeWorkflow w tnow).2.length = w.steps.length) ∧
    ((handleSagaEvent s sid "SUCCESS").1.currentStep = s.currentStep + 1) ∧
    ((handleSagaEvent s sid "SUCCESS").2
       = if h : s.currentStep + 1 < s.steps.length then
           [⟨(s.steps.get ⟨s.currentStep + 1, h⟩).service ++ "-commands", s.sagaId,
             (s.steps.get ⟨s.currentStep + 1, h⟩).stepId,
             (s.steps.get ⟨s.currentStep + 1, h⟩).command⟩]
         else []) ∧
    ((handleSagaEvent s sid "SUCCESS").2.length ≤ 1) := by
  refine ⟨?_, ?_, ?_, ?_⟩
  · simp [executeWorkflow]
  · by_cases h : s.currentStep + 1 < s.steps.length <;>
      simp [handleSagaEvent, executeNextStep, h]
  · by_cases h : s.currentStep + 1 < s.steps.length <;>
      simp [handleSagaEvent, executeNextStep, h]
  · by_cases h : s.currentStep + 1 < s.steps.length <;>
      simp [handleSagaEvent, executeNextStep, h]

/-- Claim C2, witness: the amended statement instantiated on the
`booking_creation` workflow and a freshly started saga. -/
theorem c2_request_emission_witness :
    ((executeWorkflow wfBookingCreation 0).2.length = wfBookingCreation.steps.length) ∧
    ((handleSagaEvent sagaAfterStart "1" "SUCCESS").1.currentStep
        = sagaAfterStart.currentStep + 1) ∧
    ((handleSagaEvent sagaAfterStart "1" "SUCCESS").2
       = if h : sagaAfterStart.currentStep + 1 < sagaAfterStart.steps.length then
           [⟨(sagaAfterStart.steps.get ⟨sagaAfterStart.currentStep + 1, h⟩).service
               ++ "-commands", sagaAfterStart.sagaId,
             (sagaAfterStart.steps.get ⟨sagaAfterStart.currentStep + 1, h⟩).stepId,
             (sagaAfterStart.steps.get ⟨sagaAfterStart.currentStep + 1, h⟩).command⟩]
         else []) ∧
    ((handleSagaEvent sagaAfterStart "1" "SUCCESS").2.length ≤ 1) :=
  c2_request_emission wfBookingCreation 0 sagaAfterStart "1"

/-- Claim C3, counterexample. After `start_booking_saga`, step "1" has
`retry_count = 0 < max_retries = 3` and the first failure response is, per
the claim, retryable (the orchestrator never classifies errors at all).
Yet `handle_saga_event("FAILED")` emits NO command whatsoever — no re-emitted
request with an incremented attempt counter, no backoff — it sets the saga
COMPENSATING immediately and leaves every retry counter at 0. -/
theorem c3_counterexample :
    (sagaAfterStart.steps.map SagaStep.retryCount = [0, 0, 0, 0] ∧
     sagaAfterStart.steps.map SagaStep.maxRetries = [3, 3, 3, 3]) ∧
    (handleSagaEvent sagaAfterStart "1" "FAILED").1.state = SagaState.compensating ∧
    (handleSagaEvent sagaAfterStart "1" "FAILED").2 = [] ∧
    (handleSagaEvent sagaAfterStart "1" "FAILED").1.steps.map SagaStep.retryCount
      = [0, 0, 0, 0] := by
  exact ⟨⟨rfl, rfl⟩, rfl, rfl, rfl⟩

/-- Claim C3, amended: a failure response never triggers a retry. The
`SagaOrchestrator` reacts to any "FAILED" event by setting the saga
COMPENSATING and emitting only compensation commands (its `retry_count` and
`max_retries` fields are never consulted or changed); likewise the shared
`WorkflowManager` reacts to the first `success=false` response for an
existing step by going COMPENSATING and emitting only `.compensate` events —
neither coordinator re-emits the failed step's request or applies a backoff
delay. -/
theorem c3_failure_compensates_immediately (s : BookingTicketSaga) (sid : String)
    (w : Workflow) (stepName : String) (res err : Option String) (tnow : Nat)
    (hstep : (w.steps.find? (fun st => st.name == stepName)).isSome = true) :
    ((handleSagaEvent s sid "FAILED").1.state = SagaState.compensating ∧
     (handleSagaEvent s sid "FAILED").1.steps = s.steps ∧
     (handleSagaEvent s sid "FAILED").2 = startCompensation s ∧
     (∀ c ∈ (handleSagaEvent s sid "FAILED").2, ∃ st ∈ s.steps,
        c.command = st.compensationCommand)) ∧
    ((handleWorkflowResponse w stepName false res err tnow).1.status
        = WStatus.compensating ∧
     (∀ e ∈ (handleWorkflowResponse w stepName false res err tnow).2, ∃ st ∈ w.steps,
        e.eventType = st.eventType ++ ".compensate" ∧ e.stepName = st.name)) := by
  constructor
  · refine ⟨rfl, rfl, rfl, ?_⟩
    intro c hc
    have hc' : c ∈ startCompensation s := hc
    simp only [startCompensation, List.mem_filterMap] at hc'
    obtain ⟨st, hst, hcond⟩ := hc'
    rw [List.mem_reverse] at hst
    have hmem : st ∈ s.steps := List.take_subset _ _ hst
    by_cases hok : (st.status == "SUCCESS" && st.compensationCommand != "NONE") = true
    · rw [if_pos hok] at hcond
      exact ⟨st, hmem, by cases hcond; rfl⟩
    · rw [if_neg hok] at hcond
      cases hcond
  · rw [handleWorkflowResponse_failure w stepName res err tnow hstep]
    refine ⟨rfl, ?_⟩
    intro e he
    obtain ⟨st, hmem, _, _, h2, h3⟩ := mem_compensation_events _ e he
    obtain ⟨st0, hmem0, rfl⟩ := List.mem_map.mp hmem
    by_cases hn : (st0.name == stepName) = true
    · exact ⟨st0, hmem0, by simpa [hn] using h2, by simpa [hn] using h3⟩
    · refine ⟨st0, hmem0, ?_, ?_⟩
      · simpa [hn] using h2
      · simpa [hn] using h3

/-- Claim C3, witness: the amended statement instantiated on a started saga
and the `booking_creation` workflow's `validate_user` step. -/
theorem c3_failure_compensates_immediately_witness :
    (((handleSagaEvent sagaAfterStart "1" "FAILED").1.state = SagaState.compensating ∧
      (handleSagaEvent sagaAfterStart "1" "FAILED").1.steps = sagaAfterStart.steps ∧
      (handleSagaEvent sagaAfterStart "1" "FAILED").2 = startCompensation sagaAfterStart ∧
      (∀ c ∈ (handleSagaEvent sagaAfterStart "1" "FAILED").2, ∃ st ∈ sagaAfterStart.steps,
         c.command = st.compensationCommand)) ∧
     ((handleWorkflowResponse wfBookingCreation "validate_user" false none none 9).1.status
         = WStatus.compensating ∧
      (∀ e ∈ (handleWorkflowResponse wfBookingCreation "validate_user" false none none 9).2,
         ∃ st ∈ wfBookingCreation.steps,
           e.eventType = st.eventType ++ ".compensate" ∧ e.stepName = st.name))) :=
  c3_failure_compensates_immediately sagaAfterStart "1" wfBookingCreation
    "validate_user" none none 9 rfl

/-- Claim C4, counterexample. All three `booking_creation` requests were
broadcast at once; the `check_seat_availability` response landed at time 1,
the `validate_user` response at time 2 (see `c4AfterTwo`), then
`create_payment_intent` failed. Completion order is therefore
`check_seat_availability` (1) before `validate_user` (2), so reverse
completion order would compensate `validate_user` first — but the code walks
`completed_steps` (list order) reversed and emits `check_seat_availability`'s
compensation first. Compensation order is reverse DEFINITION order, not
reverse completion order. -/
theorem c4_counterexample :
    (c4FailureResult.2.map WEvent.stepName
       = ["check_seat_availability", "validate_user"]) ∧
    ((c4AfterTwo.steps.find? (fun s => s.name == "validate_user")).map WStep.completedAt
       = some (some 2)) ∧
    ((c4AfterTwo.steps.find? (fun s => s.name == "check_seat_availability")).map
        WStep.completedAt
       = some (some 1)) := by
  exact ⟨rfl, rfl, rfl⟩

/-- Claim C4, amended: when a workflow enters compensation, compensation
events are emitted only for steps whose status is COMPLETED — never for a
PENDING, FAILED, SKIPPED (or already COMPENSATED) step — and strictly in the
reverse of the step-DEFINITION order (the `steps` list order), which
coincides with reverse completion order only when steps happen to complete
in definition order. -/
theorem c4_compensation_targets (w : Workflow) :
    (handleWorkflowFailure w).1.status = WStatus.compensating ∧
    ((handleWorkflowFailure w).2.map WEvent.stepName
       = ((w.steps.filter (fun s => s.status == WStepStatus.completed)).map
            WStep.name).reverse) ∧
    (∀ e ∈ (handleWorkflowFailure w).2, ∃ st ∈ w.steps,
       st.status = WStepStatus.completed ∧
       e.eventType = st.eventType ++ ".compensate" ∧ e.stepName = st.name) := by
  refine ⟨rfl, ?_, ?_⟩
  · simp [handleWorkflowFailure, List.map_reverse, List.map_map, Function.comp]
  · intro e he
    obtain ⟨st, hmem, hcomp, _, h2, h3⟩ := mem_compensation_events w e he
    exact ⟨st, hmem, hcomp, h2, h3⟩

/-- Claim C1, counterexample. `c1db` satisfies I-1 (exactly one active
reservation for seat 1 / event 10). The reservation store's
`update_reservation` operation — called by an admin to set the CANCELLED
reservation 101 back to CONFIRMED — succeeds without consulting the other
reservations of the pair, leaving TWO active reservations for
(seat 1, event 10): not every operation of the store preserves I-1. -/
theorem c1_counterexample :
    (c1db.reservations.countP (activeFor 1 10) = 1) ∧
    ((updateReservation c1db c1admin 101 (some .confirmed)).toOption.map
        (fun db => db.reservations.countP (activeFor 1 10)) = some 2) := by
  exact ⟨rfl, rfl⟩

/-- Claim C1, amended: the reserve operation `create_seat_reservation` does
preserve I-1 and does reject non-reservable seats — whenever it succeeds,
the seat was AVAILABLE with no active reservation for the pair (so a request
for a non-reservable seat fails with an HTTP error and creates nothing) and
the store again satisfies I-1 — but other store operations
(`update_reservation`, see the counterexample) can break the invariant. -/
theorem c1_create_preserves_unique_active (db db' : EventDB) (user : Requester)
    (seatId eventId newResId expiresAt : Nat)
    (hInv : atMostOneActive db)
    (hok : createSeatReservation db user seatId eventId newResId expiresAt = .ok db') :
    reservableB db seatId eventId = true ∧ atMostOneActive db' := by
  cases hfind : db.seats.find? (fun s => s.id == seatId) with
  | none => simp [createSeatReservation, hfind] at hok
  | some seat =>
    simp only [createSeatReservation, hfind] at hok
    by_cases h1 : seat.status ≠ .available
    · rw [if_pos h1] at hok; cases hok
    rw [if_neg h1] at hok
    by_cases h2 : ¬ db.events.contains eventId = true
    · rw [if_pos h2] at hok; cases hok
    rw [if_neg h2] at hok
    cases hres : db.reservations.find? (activeFor seatId eventId) with
    | some r => rw [hres] at hok; simp at hok
    | none =>
      rw [hres] at hok
      simp only [Option.isSome_none, Bool.false_eq_true, if_false, Except.ok.injEq] at hok
      constructor
      · have hav : seat.status = .available := by
          by_contra hc
          exact h1 hc
        simp [reservableB, hfind, hres, hav]
      · intro s e
        have hzero : db.reservations.countP (activeFor seatId eventId) = 0 :=
          List.countP_eq_zero.mpr (List.find?_eq_none.mp hres)
        have hdb' : db'.reservations = db.reservations ++
            [⟨newResId, seatId, eventId, some user.userId, .pending, expiresAt⟩] := by
          rw [← hok]
          rfl
        rw [hdb', List.countP_append]
        by_cases hmatch : (activeFor s e
            ⟨newResId, seatId, eventId, some user.userId, .pending, expiresAt⟩) = true
        · have hse : seatId = s ∧ eventId = e := by
            simp [activeFor, ResStatus.isActive] at hmatch
            exact hmatch
          obtain ⟨hs, he⟩ := hse
          subst hs
          subst he
          simp [List.countP_cons, hzero, hmatch]
        · have : List.countP (activeFor s e)
              [(⟨newResId, seatId, eventId, some user.userId, .pending, expiresAt⟩ :
                Reservation)] = 0 := by
            simp [List.countP_cons, hmatch]
          rw [this]
          simpa using hInv s e

/-- Claim C1, witness: the amended statement on a reservable seat in a
fresh store. -/
theorem c1_create_preserves_unique_active_witness :
    reservableB c1freshDB 1 10 = true ∧ atMostOneActive c1okDB :=
  c1_create_preserves_unique_active c1freshDB c1okDB c1user 1 10 5 50
    (by intro s e; simp [c1freshDB]) (by rfl)
